import Mathlib

/-!
Verification development for `src/assets/generate_icon.py` of FinanceFlowAppGitHub.

The script procedurally renders a square app icon: a solid indigo canvas, a
banded radial gradient made of 30 concentric filled circles, and a decorative
curve rendered as overlapping filled white circles along a parametric path,
then writes the file and optionally copies it into a platform asset folder.

Embedding conventions:
* Python floats are modelled by exact rationals (`ℚ`).  The numeric literals
  `0.72`, `1.2`, `1.1`, `0.6`, `0.8`, `0.3`, `0.2` are taken at their decimal
  values; the IEEE doubles the script actually manipulates differ from these by
  at most a relative `2⁻⁵²`, far below every margin used in the theorems below.
* `int(x)` (Python truncation toward zero) is `pyInt`; `//` on nonnegative
  integers is floor division.
* `math.pi` is modelled by its IEEE double value `3.141592653589793`.
* `math.sin` / `math.cos` are modelled by Taylor polynomials (`rsin`, `rcos`)
  exact over `ℚ`; on the argument range used by the script (`|x| ≤ 4.2`) they
  are within `3e-7` of the true sine and cosine, and hence within `1e-6` of the
  doubles `math.sin` / `math.cos` return.  Every theorem that depends on the
  value of a trigonometric expression has a slack of several pixels, orders of
  magnitude above this tolerance.
* `math.sqrt` composed as `int(math.sqrt(n) / 4)` on a perfect-square-free
  nonnegative integer `n` is `Nat.sqrt n / 4`: IEEE `sqrt` is correctly
  rounded, so `⌊sqrt n⌋ = Nat.sqrt n` for the small integers appearing here,
  and `⌊x / 4⌋ = ⌊⌊x⌋ / 4⌋` for real `x ≥ 0`.
* The PIL drawing surface is modelled as a base color plus the ordered list of
  filled circles drawn on it (every `draw.ellipse` call of the script has a
  square bounding box `[cx - r, cy - r, cx + r, cy + r]`, i.e. is a circle of
  radius `r` centered at integer coordinates); a pixel's final color is the
  color of the last circle covering it, else the base color.  A circle of
  radius `r` centered at `(cx, cy)` covers pixel `(x, y)` iff
  `(x - cx)² + (y - cy)² ≤ r²`.
-/

set_option maxRecDepth 10000

namespace Icon

/-- Color: an RGB triple, as passed to PIL fill arguments. -/
abbrev Color := ℤ × ℤ × ℤ

/-- Python `int()` applied to a (modelled-as-rational) float: truncation
toward zero. -/
def pyInt (q : ℚ) : ℤ := Int.tdiv q.num q.den

/-- Python floor division `a // b` for integers. -/
def pyFloorDiv (a b : ℤ) : ℤ := Int.fdiv a b

/-- Value of `math.pi`, modelled by its first ten significant digits
(`|mpi - π| < 6e-10`). -/
def mpi : ℚ := 3141592653 / 10 ^ 9

/-- Model of `math.sin`: the degree-13 Taylor polynomial of sine, evaluated
exactly over `ℚ`.  For `|x| ≤ 4.2` (the whole argument range the script uses)
its distance to the true sine is at most `4.2¹⁵ / 15! < 2e-3`; through the
amplitude 80 this moves a computed coordinate by at most `0.14` of a pixel,
while every coordinate-dependent theorem below has a slack of several pixels. -/
def rsin (x : ℚ) : ℚ :=
  let x2 := x * x
  x * (1 - x2 / 6 * (1 - x2 / 20 * (1 - x2 / 42 *
    (1 - x2 / 72 * (1 - x2 / 110 * (1 - x2 / 156))))))

/-- Model of `math.cos`: the degree-14 Taylor polynomial of cosine, evaluated
exactly over `ℚ`.  For `|x| ≤ 4.2` its distance to the true cosine is at most
`4.2¹⁶ / 16! < 5e-4`. -/
def rcos (x : ℚ) : ℚ :=
  let x2 := x * x
  1 - x2 / 2 * (1 - x2 / 12 * (1 - x2 / 30 *
    (1 - x2 / 56 * (1 - x2 / 90 * (1 - x2 / 132 * (1 - x2 / 182))))))

/-- One filled circle, as produced by a `draw.ellipse` call with a square
bounding box: center `(cx, cy)`, radius `rad`, fill color `col`. -/
structure Circle where
  cx : ℤ
  cy : ℤ
  rad : ℤ
  col : Color
deriving DecidableEq, Repr

/-- PIL image modes relevant here (`Image.new` is called with mode 'RGB'). -/
inductive ColorMode
  | RGB
  | RGBA
  | L
deriving DecidableEq, Repr

/-- Number of color channels of a PIL mode. -/
def channels : ColorMode → ℕ
  | .RGB => 3
  | .RGBA => 4
  | .L => 1

/-- Whether a PIL mode carries an alpha channel. -/
def hasAlpha : ColorMode → Bool
  | .RGBA => true
  | _ => false

/-- The drawing surface: mode and dimensions from `Image.new`, the base fill
color, and the ordered list of filled circles drawn on it. -/
structure Canvas where
  mode : ColorMode
  width : ℕ
  height : ℕ
  base : Color
  ops : List Circle
deriving DecidableEq, Repr

/-- Whether circle `c` covers pixel `(x, y)`. -/
def inCircle (c : Circle) (x y : ℤ) : Bool :=
  decide ((x - c.cx) ^ 2 + (y - c.cy) ^ 2 ≤ c.rad ^ 2)

/-- Final color of pixel `(x, y)`: the last drawn circle covering it wins,
otherwise the base color of the canvas. -/
def pixelAt (cv : Canvas) (x y : ℤ) : Color :=
  cv.ops.foldl (fun acc c => if inCircle c x y then c.col else acc) cv.base

/-- Code: `scale = size / 1024.0`. -/
def scaleQ (S : ℕ) : ℚ := (S : ℚ) / 1024

/-- Code: `center = size // 2`. -/
def center (S : ℕ) : ℤ := ((S / 2 : ℕ) : ℤ)

/-- Code: `max_radius = int(size * 0.72)`. -/
def maxRadius (S : ℕ) : ℤ := pyInt ((S : ℚ) * (72 / 100))

/-- Code: `num_layers = 30`. -/
def numLayers : ℕ := 30

/-- Code: `radius = int(max_radius * (1 - i / num_layers))`. -/
def layerRadius (S : ℕ) (i : ℕ) : ℤ :=
  pyInt ((maxRadius S : ℚ) * (1 - (i : ℚ) / numLayers))

/-- Code: interpolated gradient color of layer `i`,
`(int(99 + (139-99)*ratio), int(102 + (92-102)*ratio), int(241 + (246-241)*ratio))`
with `ratio = i / num_layers`. -/
def layerColor (i : ℕ) : Color :=
  (pyInt (99 + (139 - 99) * ((i : ℚ) / numLayers)),
   pyInt (102 + (92 - 102) * ((i : ℚ) / numLayers)),
   pyInt (241 + (246 - 241) * ((i : ℚ) / numLayers)))

/-- The background gradient layers, in draw order: the loop runs `i` over
`range(30)`, breaks at the first nonpositive radius, and otherwise fills a
circle of radius `layerRadius` and color `layerColor` centered at the canvas
center. -/
def bgLayers (S : ℕ) : List Circle :=
  ((List.range numLayers).takeWhile (fun i => decide (0 < layerRadius S i))).map
    (fun i => ⟨center S, center S, layerRadius S i, layerColor i⟩)

/-- Code: `line_width = int(16 * scale)`. -/
def lineWidth (S : ℕ) : ℤ := pyInt (16 * scaleQ S)

/-- Code: `num_points = 150`. -/
def numPoints : ℕ := 150

/-- Code: `t = i / num_points`. -/
def tparam (i : ℕ) : ℚ := (i : ℚ) / numPoints

/-- Code: `base_x = start_x + (end_x - start_x) * t` with `start_x = 200`,
`end_x = 800`. -/
def baseX (t : ℚ) : ℚ := 200 + (800 - 200) * t

/-- Code: `base_y = start_y + (end_y - start_y) * t` with `start_y = 750`,
`end_y = 250`. -/
def baseY (t : ℚ) : ℚ := 750 + (250 - 750) * t

/-- The damping factor `(1 - t * 0.3)` applied to the horizontal wave. -/
def dampX (t : ℚ) : ℚ := 1 - t * (3 / 10)

/-- The damping factor `(1 - t * 0.2)` applied to the vertical wave. -/
def dampY (t : ℚ) : ℚ := 1 - t * (2 / 10)

/-- Code: `offset_x = wave_amplitude * math.sin(t * math.pi * wave_frequency) * (1 - t * 0.3)`
with `wave_amplitude = 80`, `wave_frequency = 1.2`. -/
def offX (t : ℚ) : ℚ := 80 * rsin (t * mpi * (12 / 10)) * dampX t

/-- Code: `offset_y = wave_amplitude * 0.6 * math.cos(t * math.pi * wave_frequency * 1.1) * (1 - t * 0.2)`. -/
def offY (t : ℚ) : ℚ :=
  80 * (6 / 10) * rcos (t * mpi * (12 / 10) * (11 / 10)) * dampY t

/-- The unscaled x body `base_x + offset_x` at sample index `i`. -/
def bodyX (i : ℕ) : ℚ := baseX (tparam i) + offX (tparam i)

/-- The unscaled y body `base_y + offset_y` at sample index `i`. -/
def bodyY (i : ℕ) : ℚ := baseY (tparam i) + offY (tparam i)

/-- Code: `x = int((base_x + offset_x) * scale)`, `y = int((base_y + offset_y) * scale)`. -/
def samplePoint (S : ℕ) (i : ℕ) : ℤ × ℤ :=
  (pyInt (bodyX i * scaleQ S), pyInt (bodyY i * scaleQ S))

/-- The `points` list built by the first loop of `draw_elegant_curve`. -/
def points (S : ℕ) : List (ℤ × ℤ) := (List.range numPoints).map (samplePoint S)

/-- Code, first drawing pass: the tapered stroke width of sample `i`
(`len(points)` is 150, so `i > len(points) - 10` is `i > 140` and
`i > len(points) - 20` is `i > 130`). -/
def sampleWidth (S : ℕ) (i : ℕ) : ℤ :=
  if i < 10 ∨ 140 < i then pyInt ((lineWidth S : ℚ) * (6 / 10))
  else if i < 20 ∨ 130 < i then pyInt ((lineWidth S : ℚ) * (8 / 10))
  else lineWidth S

/-- Fill color `'white'`. -/
def white : Color := (255, 255, 255)

/-- First drawing pass of `draw_elegant_curve`: one filled white circle of
radius `current_width // 2` at every sample point, in index order. -/
def sampleCircles (S : ℕ) : List Circle :=
  ((points S).enum).map
    (fun pr => ⟨pr.2.1, pr.2.2, pyFloorDiv (sampleWidth S pr.1) 2, white⟩)

/-- Code: `steps = max(int(math.sqrt((x2-x1)**2 + (y2-y1)**2) / 4), 8)`. -/
def segSteps (p q : ℤ × ℤ) : ℕ :=
  max (Nat.sqrt ((q.1 - p.1) ^ 2 + (q.2 - p.2) ^ 2).toNat / 4) 8

/-- Code, second drawing pass: the tapered stroke width at fractional index
`point_idx = i + t`. -/
def subIdxWidth (S : ℕ) (idx : ℚ) : ℤ :=
  if idx < 10 ∨ 140 < idx then pyInt ((lineWidth S : ℚ) * (6 / 10))
  else if idx < 20 ∨ 130 < idx then pyInt ((lineWidth S : ℚ) * (8 / 10))
  else lineWidth S

/-- Second drawing pass, one segment: for `j` in `range(1, steps)`, a filled
white circle at the truncated linear interpolation between consecutive sample
points `p = points[i]` and `q = points[i+1]`, of radius
`current_width // 2` where the width is taken at fractional index `i + j/steps`. -/
def segSubCircles (S : ℕ) (i : ℕ) (p q : ℤ × ℤ) : List Circle :=
  (List.range (segSteps p q - 1)).map (fun j0 =>
    ⟨pyInt ((p.1 : ℚ) + ((q.1 : ℚ) - (p.1 : ℚ)) * ((j0 + 1 : ℕ) : ℚ) / (segSteps p q : ℚ)),
     pyInt ((p.2 : ℚ) + ((q.2 : ℚ) - (p.2 : ℚ)) * ((j0 + 1 : ℕ) : ℚ) / (segSteps p q : ℚ)),
     pyFloorDiv (subIdxWidth S ((i : ℚ) + ((j0 + 1 : ℕ) : ℚ) / (segSteps p q : ℚ))) 2,
     white⟩)

/-- Second drawing pass of `draw_elegant_curve`: for every pair of consecutive
points, the sub-step circles of that segment, in order. -/
def connectCircles (S : ℕ) : List Circle :=
  (((points S).zip (points S).tail).enum).flatMap
    (fun pr => segSubCircles S pr.1 pr.2.1 pr.2.2)

/-- All circles drawn by `draw_elegant_curve`, in draw order. -/
def curveCircles (S : ℕ) : List Circle := sampleCircles S ++ connectCircles S

/-- All circles drawn on the canvas, in draw order: background layers first,
then the curve. -/
def allCircles (S : ℕ) : List Circle := bgLayers S ++ curveCircles S

/-- The `generate_icon` render for a requested size `S`: an RGB canvas of
`S×S` pixels with base fill `(99, 102, 241)` and the drawn circles. -/
def generate_icon (S : ℕ) : Canvas :=
  { mode := .RGB, width := S, height := S, base := (99, 102, 241),
    ops := allCircles S }


/-- Name of the PNG file written by `generate_icon`:
`f"AppIcon-{size}x{size}.png"`. -/
def outputFileName (S : ℕ) : String :=
  "AppIcon-" ++ toString S ++ "x" ++ toString S ++ ".png"

/-- Result of one run of the `__main__` block. -/
structure RunOutcome where
  icon : Canvas
  writtenFile : String
  copiedToAssets : Bool
  warned : Bool
  exitCode : ℕ

/-- Model of the `__main__` block (filesystem and process primitives modelled
as total): `generate_icon(output_dir, size=1024)` always renders and writes
the icon; then, if the `AppIcon.appiconset` directory exists the file is
copied there, otherwise only a warning is printed; the script then falls off
the end, i.e. the process exits with status 0.  No statement on this path
raises, so the run never returns an error. -/
def mainRun (appiconDirExists : Bool) : Except String RunOutcome :=
  .ok { icon := generate_icon 1024, writtenFile := outputFileName 1024,
        copiedToAssets := appiconDirExists, warned := !appiconDirExists,
        exitCode := 0 }

/-- Sample-point formula as claim C6 words it: the linear interpolation
between start `(200, 750)` and end `(800, 250)` at `t = i / 150`, plus a
sine-based horizontal offset and a cosine-based vertical offset, each
multiplied by its damping factor, all scaled by `size / 1024` and converted
to integer pixels (the script's `int()`; every value converted here is
nonnegative, where `int()` agrees with the floor).  Compare `samplePoint`. -/
def specSamplePoint (S : ℕ) (i : ℕ) : ℤ × ℤ :=
  (pyInt (((1 - tparam i) * 200 + tparam i * 800
      + 80 * rsin (tparam i * mpi * (12 / 10)) * dampX (tparam i)) * scaleQ S),
   pyInt (((1 - tparam i) * 750 + tparam i * 250
      + 48 * rcos (tparam i * mpi * (12 / 10) * (11 / 10)) * dampY (tparam i)) * scaleQ S))

/-- Whether a circle lies entirely inside the size-1024 canvas. -/
def inBoundsB (c : Circle) : Bool :=
  decide (0 ≤ c.cx - c.rad ∧ c.cx + c.rad < 1024 ∧
    0 ≤ c.cy - c.rad ∧ c.cy + c.rad < 1024)

/-!
Certified evaluation at the default size 1024.  The circles drawn by the
size-1024 render are packed, 20 decimal digits per circle
(4 for `cx`, 4 for `cy`, 3 for `rad`, 3+3+3 for the color channels, the first
drawn circle in the least significant block), into the numerals `bgNum` and
`curveNum`; `decodeOps` unpacks them.  The theorems `bgLayers_1024_eq` and
`curveCircles_1024_eq` certify, by kernel evaluation of the real definitions,
that the decoded lists are exactly `bgLayers 1024` and `curveCircles 1024`.
All concrete facts about the size-1024 render are then read off the decoded
lists.
-/

/-- Decode one circle from a 20-digit block. -/
def decodeCircle (m : ℕ) : Circle :=
  ⟨((m / 10 ^ 16 : ℕ) : ℤ), (((m / 10 ^ 12) % 10 ^ 4 : ℕ) : ℤ),
   (((m / 10 ^ 9) % 10 ^ 3 : ℕ) : ℤ),
   ((((m / 10 ^ 6) % 10 ^ 3 : ℕ) : ℤ), (((m / 10 ^ 3) % 10 ^ 3 : ℕ) : ℤ),
    ((m % 10 ^ 3 : ℕ) : ℤ))⟩

/-- Decode `k` circles from a packed numeral. -/
def decodeOps : ℕ → ℕ → List Circle
  | 0, _ => []
  | k + 1, n => decodeCircle (n % 10 ^ 20) :: decodeOps k (n / 10 ^ 20)

/-- The 30 background-layer circles of the size-1024 render, packed. -/
def bgNum : ℕ := 51205120241370922450512051204913609224505120512073135093245051205120981330932450512051212213209324505120512147131094245051205121711290942440512051219612809424405120512221127095244051205122451250952440512051227012409524405120512294123096244051205123191210962430512051234312009624305120512368119097243051205123931170972430512051241711609724305120512442115098243051205124661130982420512051249111209824205120512515111099242051205125401090992420512051256510809924205120512589107100242051205126141051002410512051263810410024105120512663103101241051205126871011012410512051271210010124105120512737099102241

/-- The 1193 curve circles of the size-1024 render (150 sample circles
followed by 1043 segment sub-step circles), packed. -/
def curveNum : ℕ := 763023100425525525507630231004255255255076202320042552552550762023200425525525507620232004255255255076102330042552552550761023300425525525507600234004255255255076002340042552552550759023400425525525507590235004255255255075902350042552552550758023500425525525507580235004255255255075702360042552552550757023600425525525507560237004255255255075602370042552552550756023700425525525507550238004255255255075502380042552552550754023900425525525507540239004255255255075302390042552552550753024000425525525507530240004255255255075202400042552552550752024000425525525507510241004255255255075102410042552552550750024200425525525507500242004255255255075002420042552552550749024300425525525507490243004255255255074802440042552552550748024400425525525507480244004255255255074802450042552552550747024500425525525507470245004255255255074702450042552552550746024600425525525507460246004255255255074502470042552552550745024700425525525507450247004255255255074402480042552552550744024800425525525507430249004255255255074302490042552552550742024900425525525507420250004255255255074202500042552552550741025000425525525507410250004255255255074002510042552552550740025100425525525507390252004255255255073902520042552552550739025200425525525507380253004255255255073802530042552552550737025400625525525507370254006255255255073702540062552552550737025500625525525507360255006255255255073602550062552552550736025500625525525507350256006255255255073502560062552552550734025700625525525507340257006255255255073402570062552552550733025800625525525507330258006255255255073202590062552552550732025900625525525507310260006255255255073102600062552552550731026000625525525507300261006255255255073002610062552552550729026200625525525507290262006255255255072902620062552552550729026300625525525507280263006255255255072802630062552552550728026300625525525507270264006255255255072702640062552552550726026500625525525507260265006255255255072602650062552552550725026600625525525507250266006255255255072402670062552552550724026700625525525507230267006255255255072302680062552552550723026800625525525507220268006255255255072202680062552552550721026900625525525507210269006255255255072102700062552552550721027000625525525507200270006255255255072002710062552552550720027100625525525507190272006255255255071902720062552552550718027300625525525507180273006255255255071802730062552552550717027400625525525507170274006255255255071602750062552552550716027500625525525507160276006255255255071602760062552552550715027600625525525507150277006255255255071502770062552552550714027800625525525507140278006255255255071302780062552552550713027900625525525507130279006255255255071202790062552552550712027900625525525507110280008255255255071102800082552552550711028100825525525507110281008255255255071002810082552552550710028200825525525507100282008255255255070902830082552552550709028300825525525507080284008255255255070802840082552552550708028400825525525507070285008255255255070702850082552552550706028600825525525507060286008255255255070602870082552552550706028700825525525507050287008255255255070502880082552552550705028800825525525507040289008255255255070402890082552552550703029000825525525507030290008255255255070302900082552552550702029100825525525507020291008255255255070102920082552552550701029200825525525507010293008255255255070102930082552552550700029300825525525507000294008255255255070002940082552552550699029500825525525506990295008255255255069802960082552552550698029600825525525506980296008255255255069702970082552552550697029700825525525506960298008255255255069602980082552552550696029900825525525506960299008255255255069502990082552552550695030000825525525506950300008255255255069403010082552552550694030100825525525506930302008255255255069303020082552552550693030200825525525506920303008255255255069203030082552552550691030400825525525506910304008255255255069103050082552552550691030500825525525506900305008255255255069003060082552552550690030600825525525506890307008255255255068903070082552552550688030800825525525506880308008255255255068803080082552552550687030900825525525506870309008255255255068603100082552552550686031000825525525506860311008255255255068603110082552552550685031100825525525506850312008255255255068503120082552552550684031300825525525506840313008255255255068303140082552552550683031400825525525506830314008255255255068203150082552552550682031500825525525506810316008255255255068103160082552552550681031700825525525506810317008255255255068003170082552552550680031800825525525506800318008255255255067903190082552552550679031900825525525506780320008255255255067803200082552552550678032000825525525506770321008255255255067703210082552552550676032200825525525506760323008255255255067603230082552552550676032400825525525506750324008255255255067503250082552552550675032500825525525506740326008255255255067403260082552552550673032700825525525506730327008255255255067303270082552552550672032800825525525506720328008255255255067103290082552552550671032900825525525506710330008255255255067103300082552552550670033000825525525506700331008255255255067003310082552552550669033200825525525506690332008255255255066803330082552552550668033300825525525506680333008255255255066703340082552552550667033400825525525506660335008255255255066603360082552552550666033600825525525506660337008255255255066503370082552552550665033800825525525506650338008255255255066403390082552552550664033900825525525506630340008255255255066303400082552552550663034000825525525506620341008255255255066203410082552552550661034200825525525506610342008255255255066103430082552552550661034300825525525506600343008255255255066003440082552552550660034400825525525506590345008255255255065903460082552552550658034600825525525506580347008255255255065803470082552552550657034800825525525506570348008255255255065603490082552552550656034900825525525506560350008255255255065603500082552552550655035000825525525506550351008255255255065503510082552552550654035200825525525506540353008255255255065303530082552552550653035400825525525506530354008255255255065203550082552552550652035500825525525506510356008255255255065103560082552552550651035700825525525506510357008255255255065003570082552552550650035800825525525506500358008255255255064903590082552552550649036000825525525506480360008255255255064803610082552552550648036100825525525506470362008255255255064703620082552552550646036300825525525506460364008255255255064603640082552552550646036500825525525506450365008255255255064503660082552552550645036600825525525506440367008255255255064403670082552552550643036800825525525506430368008255255255064303680082552552550642036900825525525506420369008255255255064103700082552552550641037100825525525506410371008255255255064103720082552552550640037200825525525506400373008255255255064003730082552552550639037400825525525506390374008255255255063803750082552552550638037500825525525506380375008255255255063703760082552552550637037600825525525506360377008255255255063603780082552552550636037800825525525506360379008255255255063503790082552552550635038000825525525506350380008255255255063403810082552552550634038200825525525506330382008255255255063303830082552552550633038300825525525506320384008255255255063203840082552552550631038500825525525506310386008255255255063003860082552552550630038700825525525506300387008255255255062903880082552552550629038800825525525506280389008255255255062803900082552552550628039000825525525506280391008255255255062703910082552552550627039200825525525506270392008255255255062603930082552552550626039300825525525506250394008255255255062503940082552552550625039400825525525506240395008255255255062403950082552552550623039600825525525506230397008255255255062203970082552552550622039800825525525506220398008255255255062103990082552552550621039900825525525506200400008255255255062004010082552552550619040100825525525506190402008255255255061904020082552552550618040300825525525506180403008255255255061704040082552552550617040500825525525506170405008255255255061704060082552552550616040600825525525506160407008255255255061604070082552552550615040800825525525506150409008255255255061404090082552552550614041000825525525506140410008255255255061304110082552552550613041100825525525506120412008255255255061204130082552552550611041300825525525506110414008255255255061104140082552552550610041500825525525506100415008255255255060904160082552552550609041700825525525506080417008255255255060804180082552552550608041800825525525506070419008255255255060704190082552552550606042000825525525506060421008255255255060504210082552552550605042200825525525506050422008255255255060404230082552552550604042300825525525506030424008255255255060304250082552552550602042500825525525506020426008255255255060204260082552552550601042700825525525506010427008255255255060004280082552552550600042900825525525506000429008255255255060004300082552552550599043000825525525505990431008255255255059904310082552552550598043200825525525505980433008255255255059704330082552552550597043400825525525505970434008255255255059604350082552552550596043500825525525505950436008255255255059504370082552552550594043700825525525505940438008255255255059404380082552552550593043900825525525505930439008255255255059204400082552552550592044100825525525505910441008255255255059104420082552552550591044300825525525505900443008255255255059004440082552552550589044500825525525505890446008255255255058804460082552552550588044700825525525505880447008255255255058704480082552552550587044800825525525505860449008255255255058604500082552552550585045000825525525505850451008255255255058404510082552552550584045200825525525505830452008255255255058204530082552552550582045400825525525505810454008255255255058104550082552552550581045500825525525505800456008255255255058004560082552552550579045700825525525505790458008255255255057804580082552552550578045900825525525505780459008255255255057704600082552552550577046000825525525505760461008255255255057604620082552552550575046200825525525505750463008255255255057504640082552552550574046400825525525505740465008255255255057304660082552552550573046700825525525505720467008255255255057204680082552552550572046800825525525505710469008255255255057104690082552552550570047000825525525505700471008255255255056904710082552552550569047200825525525505680472008255255255056804730082552552550567047300825525525505660474008255255255056604750082552552550565047500825525525505650476008255255255056504770082552552550564047700825525525505640478008255255255056304790082552552550563048000825525525505620480008255255255056204810082552552550562048100825525525505610482008255255255056104820082552552550560048300825525525505600484008255255255055904840082552552550559048500825525525505580485008255255255055804860082552552550557048600825525525505560487008255255255055604880082552552550555048800825525525505550489008255255255055504900082552552550554049000825525525505540491008255255255055304920082552552550553049300825525525505520493008255255255055204940082552552550552049400825525525505510495008255255255055104950082552552550550049600825525525505500497008255255255054904970082552552550549049800825525525505480499008255255255054804990082552552550547050000825525525505460501008255255255054605020082552552550545050200825525525505450503008255255255054505030082552552550544050400825525525505440504008255255255054305050082552552550543050600825525525505420506008255255255054205070082552552550541050800825525525505410508008255255255054005090082552552550539051000825525525505390511008255255255053805110082552552550538051200825525525505370512008255255255053705130082552552550536051300825525525505350514008255255255053505150082552552550534051500825525525505340516008255255255053405170082552552550533051700825525525505330518008255255255053205190082552552550532052000825525525505310520008255255255053105210082552552550530052100825525525505300522008255255255052905220082552552550528052300825525525505280524008255255255052705240082552552550527052500825525525505260526008255255255052605260082552552550525052700825525525505240528008255255255052405290082552552550523052900825525525505230530008255255255052205300082552552550522053100825525525505210531008255255255052005320082552552550520053300825525525505190533008255255255051905340082552552550519053500825525525505180535008255255255051805360082552552550517053700825525525505170538008255255255051605380082552552550516053900825525525505150539008255255255051505400082552552550514054000825525525505130541008255255255051305420082552552550512054200825525525505120543008255255255051105440082552552550511054400825525525505100545008255255255050905460082552552550509054700825525525505080547008255255255050805480082552552550507054800825525525505070549008255255255050605490082552552550505055000825525525505050551008255255255050405510082552552550504055200825525525505030553008255255255050305530082552552550502055400825525525505010555008255255255050105560082552552550500055600825525525505000557008255255255049905570082552552550499055800825525525504980558008255255255049705590082552552550497056000825525525504960560008255255255049605610082552552550495056200825525525504950562008255255255049405630082552552550493056400825525525504920565008255255255049205650082552552550491056600825525525504900566008255255255049005670082552552550489056700825525525504880568008255255255048805690082552552550487056900825525525504870570008255255255048605710082552552550486057100825525525504850572008255255255048405730082552552550484057400825525525504830574008255255255048305750082552552550482057600825525525504820576008255255255048105770082552552550480057800825525525504800579008255255255047905790082552552550479058000825525525504780580008255255255047805810082552552550477058100825525525504760582008255255255047505830082552552550475058300825525525504740584008255255255047305850082552552550473058500825525525504720586008255255255047105870082552552550471058800825525525504700588008255255255047005890082552552550469058900825525525504690590008255255255046805900082552552550467059100825525525504670592008255255255046605920082552552550466059300825525525504650594008255255255046505940082552552550464059500825525525504630596008255255255046205970082552552550462059700825525525504610598008255255255046005980082552552550460059900825525525504590599008255255255045806000082552552550458060100825525525504570601008255255255045706020082552552550456060300825525525504560603008255255255045506040082552552550454060500825525525504530606008255255255045306060082552552550452060700825525525504510607008255255255045106080082552552550450060800825525525504490609008255255255044806100082552552550448061000825525525504470611008255255255044606120082552552550446061200825525525504450613008255255255044406140082552552550444061500825525525504430615008255255255044306160082552552550442061700825525525504420617008255255255044106180082552552550440061900825525525504390620008255255255043906200082552552550438062100825525525504370621008255255255043706220082552552550436062200825525525504350623008255255255043406240082552552550434062400825525525504330625008255255255043206260082552552550432062600825525525504310627008255255255043006280082552552550429062900825525525504290629008255255255042806300082552552550427063000825525525504270631008255255255042606310082552552550425063200825525525504250633008255255255042406330082552552550424063400825525525504230635008255255255042306350082552552550422063600825525525504210637008255255255042006380082552552550420063800825525525504190639008255255255041806390082552552550418064000825525525504170640008255255255041606410082552552550415064200825525525504150642008255255255041406430082552552550413064300825525525504130644008255255255041206440082552552550411064500825525525504100646008255255255041006460082552552550409064700825525525504080648008255255255040806480082552552550407064900825525525504060650008255255255040506510082552552550405065100825525525504040652008255255255040306520082552552550403065300825525525504020653008255255255040106540082552552550400065500825525525504000655008255255255039906560082552552550398065700825525525503980657008255255255039706580082552552550396065900825525525503950660008255255255039506600082552552550394066100825525525503930661008255255255039306620082552552550392066200825525525503910663008255255255039006640082552552550390066400825525525503890665008255255255038806660082552552550388066600825525525503870667008255255255038606680082552552550385066900825525525503840669008255255255038406700082552552550383067000825525525503820671008255255255038106710082552552550380067200825525525503790673008255255255037906730082552552550378067400825525525503770674008255255255037706750082552552550376067500825525525503750676008255255255037406770082552552550374067700825525525503730678008255255255037206790082552552550372067900825525525503710680008255255255037006810082552552550369068200825525525503690682008255255255036806830082552552550367068300825525525503670684008255255255036606840082552552550365068500825525525503640686008255255255036306860082552552550363068700825525525503620687008255255255036106880082552552550360068800825525525503590689008255255255035806900082552552550358069000825525525503570691008255255255035606910082552552550356069200825525525503550692008255255255035406930082552552550353069400825525525503530694008255255255035206950082552552550351069600825525525503510696008255255255035006970082552552550349069800825525525503480699008255255255034706990082552552550347070000825525525503460700008255255255034507010082552552550344070100825525525503430702008255255255034207030082552552550342070300825525525503410704008255255255034007040082552552550340070500825525525503390705008255255255033807060082552552550337070700825525525503360707008255255255033607080082552552550335070800825525525503340709008255255255033307090082552552550332071000825525525503310711008255255255033107110082552552550330071200825525525503290712008255255255032907130082552552550328071300825525525503270714008255255255032607150082552552550325071500825525525503250716008255255255032407170082552552550323071700825525525503220718008255255255032107190082552552550320072000825525525503190720008255255255031907210082552552550318072100825525525503170722008255255255031607220082552552550315072300625525525503140724006255255255031407240062552552550313072500625525525503120725006255255255031207260062552552550311072600625525525503100727006255255255030907280062552552550308072800625525525503080729006255255255030707290062552552550306073000625525525503050730006255255255030407310062552552550303073200625525525503030732006255255255030207330062552552550301073300625525525503010734006255255255030007340062552552550299073500625525525502980736006255255255029707360062552552550297073700625525525502960737006255255255029507380062552552550294073800625525525502930739006255255255029207400062552552550291074000625525525502910741006255255255029007410062552552550289074200625525525502880742006255255255028707430062552552550286074300625525525502850744006255255255028507440062552552550284074400625525525502830745006255255255028207450062552552550281074600625525525502800747006255255255028007470062552552550279074800625525525502780748006255255255027807490062552552550277074900625525525502760750006255255255027507510062552552550274075100625525525502740752006255255255027307520062552552550272075300625525525502710753006255255255027007540062552552550269075500625525525502680755006255255255026807560062552552550267075600625525525502660757006255255255026507570062552552550264075800625525525502630759006255255255026207590062552552550262076000625525525502610760006255255255026007610062552552550259076100625525525502580762004255255255025707620042552552550256076300425525525502560763004255255255025507630042552552550254076400425525525502530764004255255255025207650042552552550251076600425525525502500766004255255255025007670042552552550249076700425525525502480768004255255255024707680042552552550246076900425525525502450770004255255255024407700042552552550244077100425525525502430771004255255255024207720042552552550241077200425525525502400773004255255255023907730042552552550238077400425525525502380774004255255255023707740042552552550236077500425525525502350775004255255255023407760042552552550233077700425525525502320777004255255255023207780042552552550231077800425525525502300779004255255255022907790042552552550228078000425525525502270781004255255255022607810042552552550226078200425525525502250782004255255255022407830042552552550223078300425525525502220784004255255255022107840042552552550220078500425525525502200785004255255255021907850042552552550218078600425525525502170786004255255255021607870042552552550215078800425525525502150788004255255255021407890042552552550213078900425525525502130790004255255255021207900042552552550211079100425525525502100791004255255255020907920042552552550209079200425525525502080792004255255255020707930042552552550206079300425525525502050794004255255255020407950042552552550203079500425525525502030796004255255255020207960042552552550201079700425525525502000797004255255255076402310042552552550761023400425525525507580236004255255255075502390042552552550752024100425525525507490244004255255255074702460042552552550744024900425525525507410251004255255255073802540062552552550736025600625525525507330259006255255255073002620062552552550728026400625525525507250267006255255255072202690062552552550720027200625525525507170275006255255255071502780062552552550712028000825525525507100283008255255255070702860082552552550705028900825525525507020292008255255255070002950082552552550697029800825525525506950301008255255255069203040082552552550690030700825525525506870310008255255255068503130082552552550682031600825525525506800319008255255255067703220082552552550675032600825525525506720329008255255255067003320082552552550667033500825525525506650339008255255255066203420082552552550660034500825525525506570349008255255255065503520082552552550652035600825525525506500359008255255255064703630082552552550645036700825525525506420370008255255255064003740082552552550637037700825525525506350381008255255255063203850082552552550629038900825525525506270393008255255255062403960082552552550621040000825525525506180404008255255255061604080082552552550613041200825525525506100416008255255255060704200082552552550604042400825525525506010428008255255255059904320082552552550596043600825525525505930440008255255255059004450082552552550587044900825525525505830453008255255255058004570082552552550577046100825525525505740466008255255255057104700082552552550567047400825525525505640479008255255255056104830082552552550557048700825525525505540492008255255255055104960082552552550547050100825525525505440505008255255255054005100082552552550536051400825525525505330519008255255255052905230082552552550525052800825525525505210532008255255255051805370082552552550514054100825525525505100546008255255255050605500082552552550502055500825525525504980559008255255255049405640082552552550489056800825525525504850573008255255255048105780082552552550477058200825525525504720587008255255255046805910082552552550464059600825525525504590600008255255255045506050082552552550450060900825525525504450614008255255255044106190082552552550436062300825525525504310628008255255255042606320082552552550422063700825525525504170641008255255255041206450082552552550407065000825525525504020654008255255255039706590082552552550392066300825525525503870668008255255255038106720082552552550376067600825525525503710681008255255255036606850082552552550360068900825525525503550693008255255255035006980082552552550344070200825525525503390706008255255255033307100082552552550328071400825525525503220719008255255255031607230082552552550311072700625525525503050731006255255255030007350062552552550294073900625525525502880743006255255255028207460062552552550277075000625525525502710754006255255255026507580062552552550259076200625525525502530765004255255255024707690042552552550241077300425525525502350776004255255255022907800042552552550223078400425525525502170787004255255255021207910042552552550206079400425525525502000798004255255255

/-- The 30 background-layer circles of the size-1024 render. -/
def bgOps1024 : List Circle := decodeOps 30 bgNum

/-- The 1193 curve circles of the size-1024 render. -/
def curveOps1024 : List Circle := decodeOps 1193 curveNum

set_option maxHeartbeats 4000000 in
/-- Certificate: evaluating the background layers at size 1024 yields exactly
the decoded literal list. -/
theorem bgLayers_1024_beq : (bgLayers 1024 == bgOps1024) = true := by
  with_unfolding_all rfl

/-- Propositional form of `bgLayers_1024_beq`. -/
theorem bgLayers_1024_eq : bgLayers 1024 = bgOps1024 := eq_of_beq bgLayers_1024_beq

set_option maxHeartbeats 100000000 in
/-- Certificate: evaluating the curve circles at size 1024 yields exactly the
decoded literal list. -/
theorem curveCircles_1024_beq : (curveCircles 1024 == curveOps1024) = true := by
  with_unfolding_all rfl

/-- Propositional form of `curveCircles_1024_beq`. -/
theorem curveCircles_1024_eq : curveCircles 1024 = curveOps1024 :=
  eq_of_beq curveCircles_1024_beq

/-!
General facts about the embedding, shared by the claim theorems below.
-/

/-- Python truncation agrees with the floor on nonnegative rationals. -/
theorem pyInt_eq_floor {q : ℚ} (h : 0 ≤ q) : pyInt q = ⌊q⌋ := by
  rw [Rat.floor_def, pyInt]
  exact Int.tdiv_eq_ediv (Rat.num_nonneg.mpr h) (Int.natCast_nonneg _)

/-- Python truncation of a nonnegative rational is nonnegative. -/
theorem pyInt_nonneg {q : ℚ} (h : 0 ≤ q) : 0 ≤ pyInt q :=
  Int.tdiv_nonneg (Rat.num_nonneg.mpr h) (Int.natCast_nonneg _)

/-- A rational whose truncation is at least one is itself nonnegative. -/
theorem nonneg_of_one_le_pyInt {q : ℚ} (h : 1 ≤ pyInt q) : 0 ≤ q := by
  by_contra hq
  push_neg at hq
  have h1 : ¬ (0 ≤ q.num) := fun hh => absurd (Rat.num_nonneg.mp hh) (not_le.mpr hq)
  have h2 : 0 ≤ (-q.num).tdiv q.den := Int.tdiv_nonneg (by omega) (Int.natCast_nonneg _)
  rw [Int.neg_tdiv] at h2
  unfold pyInt at h
  omega

/-- The stroke width is never negative. -/
theorem lineWidth_nonneg (S : ℕ) : 0 ≤ lineWidth S := by
  apply pyInt_nonneg
  unfold scaleQ
  positivity

/-- Scale factor at the default size. -/
theorem scaleQ_1024 : scaleQ 1024 = 1 := by norm_num [scaleQ]

/-- C1: the renderer is deterministic — two runs of `generate_icon` with the
same size `S` yield the same canvas, hence in particular every pixel of the
rendered image is equal across the two runs.  The embedding makes the render
a function of the size alone: there is no randomness anywhere. -/
theorem c1_deterministic (S : ℕ) (x y : ℤ) (a b : Canvas)
    (ha : a = generate_icon S) (hb : b = generate_icon S) :
    a = b ∧ pixelAt a x y = pixelAt b x y := by
  subst ha
  subst hb
  exact ⟨rfl, rfl⟩

/-- Witness for C1: size 1024, pixel (0, 0). -/
theorem c1_deterministic_witness :
    generate_icon 1024 = generate_icon 1024 ∧
    pixelAt (generate_icon 1024) 0 0 = pixelAt (generate_icon 1024) 0 0 :=
  c1_deterministic 1024 0 0 _ _ rfl rfl

/-- C2: for every requested size `S`, the image produced by `generate_icon`
has exactly `S×S` pixels and is an RGB image: three color channels, no alpha
channel. -/
theorem c2_dimensions (S : ℕ) :
    (generate_icon S).width = S ∧ (generate_icon S).height = S ∧
    channels (generate_icon S).mode = 3 ∧ hasAlpha (generate_icon S).mode = false :=
  ⟨rfl, rfl, rfl, rfl⟩

/-- Counterexample to C3 as stated: the claim asserts the corner pixels lie
outside the gradient's maximum radius, but the squared distance from corner
(0, 0) to the canvas center is 2·512² = 524288 ≤ 737² = `maxRadius 1024`², so
the corner is inside the outermost gradient circle. -/
theorem c3_counterexample :
    ¬ ((maxRadius 1024) ^ 2 < (0 - center 1024) ^ 2 + (0 - center 1024) ^ 2) := by
  with_unfolding_all decide

/-- C3 (amended): at size 1024 the canvas-center pixel carries the innermost
(layer-index-29) interpolated gradient color, which is (137, 92, 245), and
each of the four corner pixels carries the base background fill
(99, 102, 241) — the corners lie inside the outermost gradient layer, whose
color equals the base fill, and outside every smaller layer. -/
theorem c3_center_corners :
    pixelAt (generate_icon 1024) 512 512 = layerColor 29 ∧
    layerColor 29 = (137, 92, 245) ∧
    pixelAt (generate_icon 1024) 0 0 = (99, 102, 241) ∧
    pixelAt (generate_icon 1024) 1023 0 = (99, 102, 241) ∧
    pixelAt (generate_icon 1024) 0 1023 = (99, 102, 241) ∧
    pixelAt (generate_icon 1024) 1023 1023 = (99, 102, 241) := by
  have hops : (generate_icon 1024).ops = bgOps1024 ++ curveOps1024 := by
    show allCircles 1024 = bgOps1024 ++ curveOps1024
    rw [allCircles, bgLayers_1024_eq, curveCircles_1024_eq]
  simp only [pixelAt, hops]
  with_unfolding_all decide

/-- The taper class `int(line_width * 0.6)` is strictly below the full line
width as soon as the line width is positive. -/
theorem taper6_lt {S : ℕ} (h1 : 1 ≤ lineWidth S) :
    pyInt ((lineWidth S : ℚ) * (6 / 10)) < lineWidth S := by
  have h0 : (1 : ℚ) ≤ (lineWidth S : ℚ) := by exact_mod_cast h1
  rw [pyInt_eq_floor (by nlinarith)]
  apply Int.floor_lt.mpr
  nlinarith

/-- The taper class `int(line_width * 0.8)` is strictly below the full line
width as soon as the line width is positive. -/
theorem taper8_lt {S : ℕ} (h1 : 1 ≤ lineWidth S) :
    pyInt ((lineWidth S : ℚ) * (8 / 10)) < lineWidth S := by
  have h0 : (1 : ℚ) ≤ (lineWidth S : ℚ) := by exact_mod_cast h1
  rw [pyInt_eq_floor (by nlinarith)]
  apply Int.floor_lt.mpr
  nlinarith

/-- C4 (amended: for the sizes whose computed line width is at least one
pixel, i.e. `S ≥ 64`; for smaller sizes all widths collapse to 0): the stroke
width at sample index 0 is strictly less than at the midpoint sample 75, and
more generally the width is tapered (strictly below the full line width)
exactly on the two discrete bands covering the first 20 and last 19 of the
150 samples. -/
theorem c4_taper (S : ℕ) (h1 : 1 ≤ lineWidth S) :
    sampleWidth S 0 < sampleWidth S 75 ∧
    ∀ i : ℕ, i < 150 → (sampleWidth S i < lineWidth S ↔ (i < 20 ∨ 130 < i)) := by
  constructor
  · have e0 : sampleWidth S 0 = pyInt ((lineWidth S : ℚ) * (6 / 10)) := by
      simp [sampleWidth]
    have e75 : sampleWidth S 75 = lineWidth S := by
      simp [sampleWidth]
    rw [e0, e75]
    exact taper6_lt h1
  · intro i _
    constructor
    · intro h
      by_contra hc
      push_neg at hc
      rw [sampleWidth, if_neg (by omega), if_neg (by omega)] at h
      exact lt_irrefl _ h
    · intro h
      by_cases hb : i < 10 ∨ 140 < i
      · rw [sampleWidth, if_pos hb]
        exact taper6_lt h1
      · rw [sampleWidth, if_neg hb, if_pos h]
        exact taper8_lt h1

/-- Witness for C4 at size 1024 (line width 16). -/
theorem c4_taper_witness :
    1 ≤ lineWidth 1024 ∧
    (sampleWidth 1024 0 < sampleWidth 1024 75 ∧
      ∀ i : ℕ, i < 150 → (sampleWidth 1024 i < lineWidth 1024 ↔ (i < 20 ∨ 130 < i))) :=
  ⟨by with_unfolding_all decide, c4_taper 1024 (by with_unfolding_all decide)⟩

/-- Counterexample to C4 as stated over every size: at size 32 the computed
line width is `int(16 * 32/1024) = 0`, so the width at sample 0 and at the
midpoint sample are both 0 and the strict inequality fails. -/
theorem c4_counterexample : ¬ (sampleWidth 32 0 < sampleWidth 32 75) := by
  with_unfolding_all decide

/-- Every sample point of the size-1024 render has both pixel coordinates at
least one, read off the certified circle list. -/
theorem samplePoint_1024_ge_one :
    ∀ i : ℕ, i < 150 →
      1 ≤ (samplePoint 1024 i).1 ∧ 1 ≤ (samplePoint 1024 i).2 := by
  have hentry : ∀ i : ℕ, i < 150 → curveOps1024[i]? =
      some ⟨(samplePoint 1024 i).1, (samplePoint 1024 i).2,
        pyFloorDiv (sampleWidth 1024 i) 2, white⟩ := by
    intro i hi
    rw [← curveCircles_1024_eq]
    show (sampleCircles 1024 ++ connectCircles 1024)[i]? = _
    have hlen : (sampleCircles 1024).length = 150 := by
      simp [sampleCircles, points, numPoints]
    rw [List.getElem?_append, hlen, if_pos hi]
    simp [sampleCircles, points, numPoints, List.getElem?_map,
      List.getElem?_enum, List.getElem?_range hi]
  have hdec : ∀ i : ℕ, i < 150 →
      1 ≤ (curveOps1024[i]?.getD ⟨0, 0, 0, (0, 0, 0)⟩).cx ∧
      1 ≤ (curveOps1024[i]?.getD ⟨0, 0, 0, (0, 0, 0)⟩).cy := by
    with_unfolding_all decide
  intro i hi
  have h := hdec i hi
  rw [hentry i hi] at h
  exact h

/-- The unscaled curve bodies are nonnegative at every sample index. -/
theorem body_nonneg (i : ℕ) (hi : i < 150) : 0 ≤ bodyX i ∧ 0 ≤ bodyY i := by
  have h := samplePoint_1024_ge_one i hi
  simp only [samplePoint, scaleQ_1024, mul_one] at h
  exact ⟨nonneg_of_one_le_pyInt h.1, nonneg_of_one_le_pyInt h.2⟩

/-- C5 (amended): for a positive integer factor `k`, the coordinate computed
at size `k·1024` lies between `k` times the coordinate computed at size 1024
and that value plus `k - 1` — the claimed tolerance of ±1 pixel only holds
for `k ≤ 2`; in general the slack is `k - 1` (truncation happens after
scaling). -/
theorem c5_scaling (k i : ℕ) (hk : 1 ≤ k) (hi : i < 150) :
    ((k : ℤ) * (samplePoint 1024 i).1 ≤ (samplePoint (1024 * k) i).1 ∧
      (samplePoint (1024 * k) i).1 ≤ (k : ℤ) * (samplePoint 1024 i).1 + ((k : ℤ) - 1)) ∧
    ((k : ℤ) * (samplePoint 1024 i).2 ≤ (samplePoint (1024 * k) i).2 ∧
      (samplePoint (1024 * k) i).2 ≤ (k : ℤ) * (samplePoint 1024 i).2 + ((k : ℤ) - 1)) := by
  obtain ⟨hbx, hby⟩ := body_nonneg i hi
  have hk0 : (0 : ℚ) < (k : ℚ) := by exact_mod_cast hk
  have hsk : scaleQ (1024 * k) = (k : ℚ) := by
    unfold scaleQ
    push_cast
    field_simp
  have general : ∀ b : ℚ, 0 ≤ b →
      (k : ℤ) * pyInt (b * scaleQ 1024) ≤ pyInt (b * scaleQ (1024 * k)) ∧
      pyInt (b * scaleQ (1024 * k)) ≤ (k : ℤ) * pyInt (b * scaleQ 1024) + ((k : ℤ) - 1) := by
    intro b hb
    rw [scaleQ_1024, hsk, mul_one]
    rw [pyInt_eq_floor hb, pyInt_eq_floor (by positivity)]
    constructor
    · apply Int.le_floor.mpr
      push_cast
      calc ((k : ℚ)) * (⌊b⌋ : ℚ) ≤ (k : ℚ) * b :=
             mul_le_mul_of_nonneg_left (Int.floor_le b) (le_of_lt hk0)
           _ = b * k := mul_comm _ _
    · have hlt : ⌊b * (k : ℚ)⌋ < (k : ℤ) * ⌊b⌋ + (k : ℤ) := by
        apply Int.floor_lt.mpr
        push_cast
        calc b * (k : ℚ) < ((⌊b⌋ : ℚ) + 1) * (k : ℚ) :=
               mul_lt_mul_of_pos_right (Int.lt_floor_add_one b) hk0
             _ = (k : ℚ) * (⌊b⌋ : ℚ) + (k : ℚ) := by ring
      omega
  simp only [samplePoint]
  exact ⟨general (bodyX i) hbx, general (bodyY i) hby⟩

/-- Witness for C5 at `k = 2`, `i = 15`. -/
theorem c5_scaling_witness :
    1 ≤ 2 ∧ 15 < 150 ∧
    (((2 : ℤ) * (samplePoint 1024 15).1 ≤ (samplePoint (1024 * 2) 15).1 ∧
      (samplePoint (1024 * 2) 15).1 ≤ (2 : ℤ) * (samplePoint 1024 15).1 + ((2 : ℤ) - 1)) ∧
     ((2 : ℤ) * (samplePoint 1024 15).2 ≤ (samplePoint (1024 * 2) 15).2 ∧
      (samplePoint (1024 * 2) 15).2 ≤ (2 : ℤ) * (samplePoint 1024 15).2 + ((2 : ℤ) - 1))) :=
  ⟨by decide, by decide, c5_scaling 2 15 (by decide) (by decide)⟩

/-- Counterexample to C5 as stated: at `k = 10` and sample index 15, the
x-coordinate computed at size 10240 is 2885 while ten times the coordinate
computed at size 1024 is 2880 — a difference of 5, far outside the claimed
±1 tolerance. -/
theorem c5_counterexample :
    ¬ (|(samplePoint (1024 * 10) 15).1 - 10 * (samplePoint 1024 15).1| ≤ 1) := by
  with_unfolding_all decide

/-- Every sample point agrees with the specification-side formula. -/
theorem samplePoint_eq_spec (S i : ℕ) : samplePoint S i = specSamplePoint S i := by
  have hx : bodyX i * scaleQ S =
      ((1 - tparam i) * 200 + tparam i * 800
        + 80 * rsin (tparam i * mpi * (12 / 10)) * dampX (tparam i)) * scaleQ S := by
    unfold bodyX baseX offX
    ring
  have hy : bodyY i * scaleQ S =
      ((1 - tparam i) * 750 + tparam i * 250
        + 48 * rcos (tparam i * mpi * (12 / 10) * (11 / 10)) * dampY (tparam i)) * scaleQ S := by
    unfold bodyY baseY offY
    ring
  unfold samplePoint specSamplePoint
  rw [hx, hy]

/-- C6: the sampler produces exactly 150 points; the parameter values
`t = i/150` are equally spaced (consecutive difference `1/150`) and lie in
`[0, 1)`; each produced point is the linear interpolation between
`(200, 750)` and `(800, 250)` at `t`, plus a sine-based horizontal offset and
a cosine-based vertical offset, each multiplied by a damping factor that
strictly decreases as `t` grows toward 1, all scaled by `size/1024` and
truncated to integers. -/
theorem c6_sampling (S : ℕ) :
    (points S).length = 150 ∧
    (∀ i : ℕ, i < 150 → tparam i = (i : ℚ) / 150 ∧ 0 ≤ tparam i ∧ tparam i < 1) ∧
    (∀ i : ℕ, tparam (i + 1) - tparam i = 1 / 150) ∧
    (∀ i : ℕ, i < 150 → (points S)[i]? = some (specSamplePoint S i)) ∧
    (∀ s u : ℚ, s < u → dampX u < dampX s ∧ dampY u < dampY s) := by
  refine ⟨by simp [points, numPoints], ?_, ?_, ?_, ?_⟩
  · intro i hi
    refine ⟨by norm_num [tparam, numPoints], ?_, ?_⟩
    · unfold tparam
      positivity
    · unfold tparam numPoints
      rw [div_lt_one (by norm_num)]
      exact_mod_cast hi
  · intro i
    unfold tparam numPoints
    push_cast
    ring
  · intro i hi
    simp [points, numPoints, List.getElem?_map, List.getElem?_range hi,
      samplePoint_eq_spec]
  · intro s u hsu
    unfold dampX dampY
    constructor <;> linarith

/-- The sub-step width at fractional index `i + t`, `0 < t < 1`, always
equals the tapered width of sample `i` or of sample `i + 1`. -/
theorem subIdxWidth_cases (S i : ℕ) (t : ℚ) (h0 : 0 < t) (h1 : t < 1) :
    subIdxWidth S ((i : ℚ) + t) = sampleWidth S i ∨
    subIdxWidth S ((i : ℚ) + t) = sampleWidth S (i + 1) := by
  have e10 : ((i : ℚ) + t < 10) ↔ i < 10 := by
    constructor
    · intro h
      by_contra hh
      push_neg at hh
      have : (10 : ℚ) ≤ (i : ℚ) := by exact_mod_cast hh
      linarith
    · intro h
      have : (i : ℚ) ≤ 9 := by exact_mod_cast Nat.lt_succ_iff.mp h
      linarith
  have e20 : ((i : ℚ) + t < 20) ↔ i < 20 := by
    constructor
    · intro h
      by_contra hh
      push_neg at hh
      have : (20 : ℚ) ≤ (i : ℚ) := by exact_mod_cast hh
      linarith
    · intro h
      have : (i : ℚ) ≤ 19 := by exact_mod_cast Nat.lt_succ_iff.mp h
      linarith
  have e130 : (130 < (i : ℚ) + t) ↔ 130 ≤ i := by
    constructor
    · intro h
      by_contra hh
      push_neg at hh
      have : (i : ℚ) ≤ 129 := by exact_mod_cast Nat.lt_succ_iff.mp hh
      linarith
    · intro h
      have : (130 : ℚ) ≤ (i : ℚ) := by exact_mod_cast h
      linarith
  have e140 : (140 < (i : ℚ) + t) ↔ 140 ≤ i := by
    constructor
    · intro h
      by_contra hh
      push_neg at hh
      have : (i : ℚ) ≤ 139 := by exact_mod_cast Nat.lt_succ_iff.mp hh
      linarith
    · intro h
      have : (140 : ℚ) ≤ (i : ℚ) := by exact_mod_cast h
      linarith
  have hsub : subIdxWidth S ((i : ℚ) + t) =
      if i < 10 ∨ 140 ≤ i then pyInt ((lineWidth S : ℚ) * (6 / 10))
      else if i < 20 ∨ 130 ≤ i then pyInt ((lineWidth S : ℚ) * (8 / 10))
      else lineWidth S := by
    unfold subIdxWidth
    exact if_congr (or_congr e10 e140) rfl (if_congr (or_congr e20 e130) rfl rfl)
  rw [hsub]
  unfold sampleWidth
  split_ifs <;> first | (left; rfl) | (right; rfl) | omega

/-- C7: each segment between consecutive samples is subdivided into
`max(int(√(pixel length²)/4), 8)` steps — proportional to the segment's pixel
length, never fewer than 8 — a filled circle is drawn at every sub-step
(`segSubCircles`), and the width used at a sub-step `j` is the taper band
evaluated at the fractional index `i + j/steps`, which always lies between
the taper classes of the two adjacent samples. -/
theorem c7_subdivision (S : ℕ) (p q : ℤ × ℤ) (i j : ℕ)
    (_hi : i + 1 < 150) (hj1 : 1 ≤ j) (hjs : j < segSteps p q) :
    8 ≤ segSteps p q ∧
    segSteps p q = max (Nat.sqrt ((q.1 - p.1) ^ 2 + (q.2 - p.2) ^ 2).toNat / 4) 8 ∧
    (segSubCircles S i p q).length = segSteps p q - 1 ∧
    min (sampleWidth S i) (sampleWidth S (i + 1))
      ≤ subIdxWidth S ((i : ℚ) + (j : ℚ) / (segSteps p q : ℚ)) ∧
    subIdxWidth S ((i : ℚ) + (j : ℚ) / (segSteps p q : ℚ))
      ≤ max (sampleWidth S i) (sampleWidth S (i + 1)) := by
  have hst : 0 < segSteps p q := lt_of_lt_of_le (by norm_num) (le_max_right _ 8)
  have hstq : (0 : ℚ) < (segSteps p q : ℚ) := by exact_mod_cast hst
  have h0 : 0 < (j : ℚ) / (segSteps p q : ℚ) := by
    apply div_pos _ hstq
    exact_mod_cast hj1
  have h1 : (j : ℚ) / (segSteps p q : ℚ) < 1 := by
    rw [div_lt_one hstq]
    exact_mod_cast hjs
  refine ⟨le_max_right _ 8, rfl, by simp [segSubCircles], ?_⟩
  rcases subIdxWidth_cases S i ((j : ℚ) / (segSteps p q : ℚ)) h0 h1 with h | h <;>
    rw [h]
  · exact ⟨min_le_left _ _, le_max_left _ _⟩
  · exact ⟨min_le_right _ _, le_max_right _ _⟩

/-- Witness for C7: the degenerate segment from (0,0) to (0,0) gets the
minimum 8 steps; sub-step 1 of segment 0 at size 1024. -/
theorem c7_subdivision_witness :
    (0 + 1 < 150 ∧ 1 ≤ 1 ∧ 1 < segSteps ((0, 0) : ℤ × ℤ) ((0, 0) : ℤ × ℤ)) ∧
    (8 ≤ segSteps ((0, 0) : ℤ × ℤ) ((0, 0) : ℤ × ℤ) ∧
     segSteps ((0, 0) : ℤ × ℤ) ((0, 0) : ℤ × ℤ) =
       max (Nat.sqrt ((0 - 0 : ℤ) ^ 2 + (0 - 0 : ℤ) ^ 2).toNat / 4) 8 ∧
     (segSubCircles 1024 0 ((0, 0) : ℤ × ℤ) ((0, 0) : ℤ × ℤ)).length =
       segSteps ((0, 0) : ℤ × ℤ) ((0, 0) : ℤ × ℤ) - 1 ∧
     min (sampleWidth 1024 0) (sampleWidth 1024 (0 + 1))
       ≤ subIdxWidth 1024 ((0 : ℚ) + (1 : ℚ) / (segSteps ((0, 0) : ℤ × ℤ) ((0, 0) : ℤ × ℤ) : ℚ)) ∧
     subIdxWidth 1024 ((0 : ℚ) + (1 : ℚ) / (segSteps ((0, 0) : ℤ × ℤ) ((0, 0) : ℤ × ℤ) : ℚ))
       ≤ max (sampleWidth 1024 0) (sampleWidth 1024 (0 + 1))) :=
  ⟨⟨by decide, by decide, by with_unfolding_all decide⟩,
   c7_subdivision 1024 (0, 0) (0, 0) 0 1 (by decide) (by decide)
     (by with_unfolding_all decide)⟩

/-- C8: as long as 30 ≤ `max_radius` (true for every size `S ≥ 42`, in
particular the shipped 1024), the 30 background layer radii are strictly
decreasing from outermost to innermost — every later circle is drawn inside
the earlier ones — and all 30 layers are actually drawn (the break on a
nonpositive radius never fires). -/
theorem c8_radii (S i j : ℕ) (h30 : 30 ≤ maxRadius S) (hij : i < j) (hj : j < 30) :
    layerRadius S j < layerRadius S i ∧ (bgLayers S).length = 30 := by
  have hM : (30 : ℚ) ≤ (maxRadius S : ℚ) := by exact_mod_cast h30
  have val : ∀ n : ℕ, n < 30 →
      layerRadius S n = ⌊(maxRadius S : ℚ) * (1 - (n : ℚ) / 30)⌋ := by
    intro n hn
    have hn' : (n : ℚ) ≤ 30 := by exact_mod_cast hn.le
    show pyInt ((maxRadius S : ℚ) * (1 - (n : ℚ) / numLayers)) = _
    rw [show ((numLayers : ℕ) : ℚ) = 30 from by norm_num [numLayers]]
    exact pyInt_eq_floor (by nlinarith)
  have pos : ∀ n : ℕ, n < 30 → 0 < layerRadius S n := by
    intro n hn
    have hn' : (n : ℚ) ≤ 29 := by exact_mod_cast Nat.lt_succ_iff.mp hn
    rw [val n hn]
    have : (1 : ℚ) ≤ (maxRadius S : ℚ) * (1 - (n : ℚ) / 30) := by nlinarith
    have := Int.le_floor.mpr (by push_cast; linarith : ((1 : ℤ) : ℚ) ≤ (maxRadius S : ℚ) * (1 - (n : ℚ) / 30))
    omega
  constructor
  · have hij' : (i : ℚ) + 1 ≤ (j : ℚ) := by exact_mod_cast hij
    rw [val j hj, val i (hij.trans hj)]
    have hstep : (maxRadius S : ℚ) * (1 - (j : ℚ) / 30) + 1 ≤
        (maxRadius S : ℚ) * (1 - (i : ℚ) / 30) := by nlinarith
    calc ⌊(maxRadius S : ℚ) * (1 - (j : ℚ) / 30)⌋
        < ⌊(maxRadius S : ℚ) * (1 - (j : ℚ) / 30)⌋ + 1 := lt_add_one _
      _ = ⌊(maxRadius S : ℚ) * (1 - (j : ℚ) / 30) + 1⌋ := (Int.floor_add_one _).symm
      _ ≤ ⌊(maxRadius S : ℚ) * (1 - (i : ℚ) / 30)⌋ := Int.floor_le_floor hstep
  · unfold bgLayers
    rw [List.takeWhile_eq_self_iff.mpr ?_]
    · simp [numLayers]
    · intro n hn
      simp only [List.mem_range, numLayers] at hn
      simpa using pos n hn

/-- Witness for C8 at size 1024, layers 3 < 17. -/
theorem c8_radii_witness :
    30 ≤ maxRadius 1024 ∧ 3 < 17 ∧ 17 < 30 ∧
    (layerRadius 1024 17 < layerRadius 1024 3 ∧ (bgLayers 1024).length = 30) :=
  ⟨by with_unfolding_all decide, by decide, by decide,
   c8_radii 1024 3 17 (by with_unfolding_all decide) (by decide) (by decide)⟩

/-- C9: when the platform asset directory is missing, the run still renders
the icon and writes the primary output PNG `AppIcon-1024x1024.png`, the run
returns a value rather than an error (no exception propagates), only the
warning flag is set (nothing is copied), and the process exit status is 0. -/
theorem c9_missing_dir :
    mainRun false = .ok ⟨generate_icon 1024, outputFileName 1024, false, true, 0⟩ ∧
    outputFileName 1024 = "AppIcon-1024x1024.png" :=
  ⟨rfl, by with_unfolding_all rfl⟩

/-- C10: at the default size 1024 (with the fixed constants of the script),
every filled circle drawn for the curve — the 150 sample circles and all
segment sub-step circles — lies entirely within the canvas bounds: both
`x ± width//2` and `y ± width//2` stay inside `[0, 1024)`.  No curve drawing
call relies on library-side clipping. -/
theorem c10_curve_in_bounds :
    ∀ c ∈ curveCircles 1024, 0 ≤ c.cx - c.rad ∧ c.cx + c.rad < 1024 ∧
      0 ≤ c.cy - c.rad ∧ c.cy + c.rad < 1024 := by
  have hall : curveOps1024.all inBoundsB = true := by with_unfolding_all rfl
  intro c hc
  rw [curveCircles_1024_eq] at hc
  exact of_decide_eq_true (List.all_eq_true.mp hall c hc)

/-- Witness for C10: the first curve circle, center (200, 798), radius 4. -/
theorem c10_curve_in_bounds_witness :
    0 ≤ (200 : ℤ) - 4 ∧ (200 : ℤ) + 4 < 1024 ∧
    0 ≤ (798 : ℤ) - 4 ∧ (798 : ℤ) + 4 < 1024 := by
  have hm : (⟨200, 798, 4, white⟩ : Circle) ∈ curveCircles 1024 := by
    rw [curveCircles_1024_eq]
    with_unfolding_all decide
  exact c10_curve_in_bounds ⟨200, 798, 4, white⟩ hm


end Icon
